import Mathlib

/-!
Verification of the OnlyScrews caching configuration repository.

Paths and computed strings are embedded as `List Char`; fixed header
values stay as `String` literals. `startsWithL`, `containsSub` and
`replaceFirst` embed the JavaScript string operations `startsWith`,
`includes` and single-pattern `replace` (which replaces only the first
occurrence).
-/

/-- Embedding of JavaScript `s.startsWith(pat)`: `startsWithL s pat` is
true when `pat` is a prefix of `s`. -/
def startsWithL : List Char → List Char → Bool
  | _, [] => true
  | [], _ :: _ => false
  | c :: cs, p :: ps => c == p && startsWithL cs ps

/-- Embedding of JavaScript `s.includes(pat)`. -/
def containsSub : List Char → List Char → Bool
  | [], sub => sub.isEmpty
  | c :: rest, sub => startsWithL (c :: rest) sub || containsSub rest sub

/-- Embedding of JavaScript `s.replace(pat, repl)` with a string
pattern: only the first occurrence of `pat` is replaced. -/
def replaceFirst : List Char → List Char → List Char → List Char
  | [], _, _ => []
  | c :: rest, pat, repl =>
    if startsWithL (c :: rest) pat then repl ++ (c :: rest).drop pat.length
    else c :: replaceFirst rest pat repl

/-! ## Middleware (src/middleware.ts) -/

/-- The request URL seen by the middleware (`request.nextUrl`). -/
structure Url where
  protocol : String
  host : String
  pathname : List Char
  search : String
  deriving DecidableEq

/-- Outcome of one middleware run: an optional (status, target URL)
redirect and the optional `Cache-Control` header value it set on the
pass-through response. -/
structure MwResult where
  redirect : Option (Nat × Url)
  cacheControl : Option String
  deriving DecidableEq

def homepageDirective : String :=
  "public, s-maxage=60, stale-while-revalidate=300, stale-if-error=86400"

def blogDirective : String :=
  "public, s-maxage=3600, stale-while-revalidate=86400, stale-if-error=604800"

def productsDirective : String :=
  "public, s-maxage=1800, stale-while-revalidate=86400, stale-if-error=604800"

def selfTapSpace : List Char := "/self-tapping -screws".data

def selfTapPct : List Char := "/self-tapping%20-screws".data

def selfTapCanon : List Char := "/self-tapping-screws".data

/-- The path rewrite applied before the 301 redirect: both `replace`
calls from src/middleware.ts, each replacing the first occurrence of
its variant. -/
def normalizePath (p : List Char) : List Char :=
  replaceFirst (replaceFirst p selfTapSpace selfTapCanon) selfTapPct selfTapCanon

/-- Embedding of `middleware` from src/middleware.ts: first the URL
normalization redirect (301), otherwise the sequence of conditional
`Cache-Control` header assignments (a later assignment overwrites an
earlier one, as `headers.set` would). -/
def middleware (url : Url) : MwResult :=
  let pathname := url.pathname
  if containsSub pathname selfTapSpace || containsSub pathname selfTapPct then
    let newPath := normalizePath pathname
    { redirect := some (301, { url with pathname := newPath }),
      cacheControl := none }
  else
    let h1 : Option String :=
      if pathname = "/".data then some homepageDirective else none
    let h2 : Option String :=
      if startsWithL pathname "/blog".data then some blogDirective else h1
    let h3 : Option String :=
      if startsWithL pathname "/products".data || startsWithL pathname "/category".data
      then some productsDirective else h2
    { redirect := none, cacheControl := h3 }

/-- Embedding of the middleware `config.matcher` regular expression
`/((?!api|_next/static|_next/image|favicon.ico).*)` : a path matches
when it starts with a slash and the remainder does not begin with any
of the four excluded alternatives. -/
def middlewareMatches (p : List Char) : Bool :=
  match p with
  | '/' :: rest =>
    !(startsWithL rest "api".data || startsWithL rest "_next/static".data ||
      startsWithL rest "_next/image".data || startsWithL rest "favicon.ico".data)
  | _ => false

/-! ## Cache policy table and API caching helpers (src/unnamed/part_002) -/

/-- The eight policy names keying `CACHE_POLICIES`. -/
inductive PolicyName where
  | homepage
  | productList
  | productDetail
  | blog
  | category
  | images
  | noCache
  | search
  deriving DecidableEq

/-- One entry of the policy table: a `Cache-Control` directive string
and a human-readable description. -/
structure CachePolicy where
  cacheControl : String
  description : String
  deriving DecidableEq

/-- Embedding of the `CACHE_POLICIES` constant. -/
def CACHE_POLICIES : PolicyName → CachePolicy
  | .homepage =>
    { cacheControl := "public, s-maxage=60, stale-while-revalidate=300, stale-if-error=86400",
      description := "Homepage: 1 minute CDN + 5 min stale" }
  | .productList =>
    { cacheControl := "public, s-maxage=1800, stale-while-revalidate=86400, stale-if-error=604800",
      description := "Product lists: 30 min CDN + 24hr stale" }
  | .productDetail =>
    { cacheControl := "public, s-maxage=3600, stale-while-revalidate=86400, stale-if-error=604800",
      description := "Product details: 1hr CDN + 24hr stale" }
  | .blog =>
    { cacheControl := "public, s-maxage=3600, stale-while-revalidate=86400, stale-if-error=604800",
      description := "Blog posts: 1hr CDN + 24hr stale" }
  | .category =>
    { cacheControl := "public, s-maxage=3600, stale-while-revalidate=86400, stale-if-error=604800",
      description := "Categories: 1hr CDN + 24hr stale" }
  | .images =>
    { cacheControl := "public, max-age=31536000, immutable",
      description := "Images: 1 year immutable" }
  | .noCache =>
    { cacheControl := "private, no-cache, no-store, must-revalidate",
      description := "User data: No caching" }
  | .search =>
    { cacheControl := "public, s-maxage=900, stale-while-revalidate=3600",
      description := "Search: 15 min CDN + 1hr stale" }

/-- The eight policy names, listed. -/
def allPolicyNames : List PolicyName :=
  [.homepage, .productList, .productDetail, .blog, .category, .images, .noCache, .search]

/-- JSON values serializable by `JSON.stringify` (numbers restricted to
integers, which is what this codebase serializes). -/
inductive Json where
  | null
  | bool (b : Bool)
  | num (n : Int)
  | str (s : String)
  | arr (xs : List Json)
  | obj (fields : List (String × Json))

def hexDigit (n : Nat) : Char := "0123456789abcdef".data.getD n '0'

/-- `JSON.stringify` escaping of one character inside a string literal. -/
def escapeJsonChar (c : Char) : List Char :=
  if c = '"' then ['\\', '"']
  else if c = '\\' then ['\\', '\\']
  else if c = '\x08' then ['\\', 'b']
  else if c = '\x0c' then ['\\', 'f']
  else if c = '\n' then ['\\', 'n']
  else if c = '\r' then ['\\', 'r']
  else if c = '\t' then ['\\', 't']
  else if c.toNat < 32 then
    ['\\', 'u', '0', '0', hexDigit (c.toNat / 16), hexDigit (c.toNat % 16)]
  else [c]

def jsonEscape (s : String) : String :=
  ((s.data.map escapeJsonChar).flatten).asString

mutual

/-- Embedding of `JSON.stringify`. -/
def jsonStringify : Json → String
  | .null => "null"
  | .bool true => "true"
  | .bool false => "false"
  | .num n => toString n
  | .str s => "\"" ++ jsonEscape s ++ "\""
  | .arr xs => "[" ++ String.intercalate "," (jsonStringifyList xs) ++ "]"
  | .obj fs => "\x7b" ++ String.intercalate "," (jsonStringifyFields fs) ++ "\x7d"

def jsonStringifyList : List Json → List String
  | [] => []
  | x :: xs => jsonStringify x :: jsonStringifyList xs

def jsonStringifyFields : List (String × Json) → List String
  | [] => []
  | (k, v) :: fs =>
    ("\"" ++ jsonEscape k ++ "\":" ++ jsonStringify v) :: jsonStringifyFields fs

end

/-- UTF-8 encoding of one character, as byte values (what
`Buffer.from(string)` produces per character). -/
def utf8EncodeChar (c : Char) : List Nat :=
  let n := c.toNat
  if n < 128 then [n]
  else if n < 2048 then [192 + n / 64, 128 + n % 64]
  else if n < 65536 then [224 + n / 4096, 128 + n / 64 % 64, 128 + n % 64]
  else [240 + n / 262144, 128 + n / 4096 % 64, 128 + n / 64 % 64, 128 + n % 64]

def utf8Encode (s : List Char) : List Nat :=
  (s.map utf8EncodeChar).flatten

def b64Char (n : Nat) : Char :=
  "ABCDEFGHIJKLMNOPQRSTUVWXYZabcdefghijklmnopqrstuvwxyz0123456789+/".data.getD n 'A'

/-- Standard base64 of a byte list (what `buffer.toString(base64)`
produces), with `=` padding. -/
def base64Encode : List Nat → List Char
  | [] => []
  | [b1] => [b64Char (b1 / 4), b64Char (b1 % 4 * 16), '=', '=']
  | [b1, b2] => [b64Char (b1 / 4), b64Char (b1 % 4 * 16 + b2 / 16), b64Char (b2 % 16 * 4), '=']
  | b1 :: b2 :: b3 :: rest =>
    b64Char (b1 / 4) :: b64Char (b1 % 4 * 16 + b2 / 16) ::
      b64Char (b2 % 16 * 4 + b3 / 64) :: b64Char (b3 % 64) :: base64Encode rest

/-- The ETag value `createCachedResponse` computes:
`W/"` + first 20 characters of the base64 of the UTF-8 bytes of the
JSON body + `"`. -/
def etagOf (body : String) : String :=
  "W/\"" ++ ((base64Encode (utf8Encode body.data)).take 20).asString ++ "\""

/-- An HTTP response as built by the helper library. -/
structure ApiResponse where
  status : Nat
  body : String
  headers : List (String × String)
  deriving DecidableEq

def getHeader (r : ApiResponse) (k : String) : Option String :=
  (r.headers.find? (fun kv => kv.1 == k)).map (fun kv => kv.2)

/-- Embedding of `createCachedResponse`: `policy` is `none` when the
caller omits the parameter, in which case the source's default
`productList` applies. -/
def createCachedResponse (data : Json) (policy : Option PolicyName := none) : ApiResponse :=
  let cachePolicy := CACHE_POLICIES (policy.getD .productList)
  { status := 200,
    body := jsonStringify data,
    headers := [
      ("Cache-Control", cachePolicy.cacheControl),
      ("Content-Type", "application/json"),
      ("ETag", etagOf (jsonStringify data))
    ] }

/-- An incoming request, reduced to its header map. -/
structure Request where
  headers : List (String × String)

def getReqHeader (req : Request) (k : String) : Option String :=
  (req.headers.find? (fun kv => kv.1 == k)).map (fun kv => kv.2)

/-- A 304 short-circuit response (status plus optional body). -/
structure CondResponse where
  status : Nat
  body : Option String
  deriving DecidableEq

/-- JavaScript `>=` on `getTime()` results, where `none` stands for
`NaN` (an invalid date): any comparison against `NaN` is false. -/
def jsGe : Option Int → Option Int → Bool
  | some a, some b => a ≥ b
  | _, _ => false

/-- Embedding of `checkConditionalRequest`, parameterized by the
runtime's date parser `parse` (`none` = invalid date / `NaN`). The
`if-none-match` header is read but never used, as in the source; the
`if (ifModifiedSince)` truthiness test also rejects an empty string. -/
def checkConditionalRequest (parse : String → Option Int) (req : Request)
    (lastModified : String) : Option CondResponse :=
  let _ifNoneMatch := getReqHeader req "if-none-match"
  let ifModifiedSince := getReqHeader req "if-modified-since"
  match ifModifiedSince with
  | some v =>
    if v ≠ "" then
      let clientDate := parse v
      let serverDate := parse lastModified
      if jsGe clientDate serverDate then some { status := 304, body := none }
      else none
    else none
  | none => none

/-- Embedding of `withCache`: the fetch operation is a state-passing
computation `σ → Except ε α × σ` (so that the number of invocations is
visible in the final state); the result carries the `Except` outcome,
the state after the single invocation, and the list of log lines. -/
def withCache {σ ε α : Type} (fetchFn : σ → Except ε α × σ)
    (policy : Option PolicyName := none) (s : σ) :
    Except ε (α × CachePolicy) × σ × List String :=
  match fetchFn s with
  | (.ok data, s2) => (.ok (data, CACHE_POLICIES (policy.getD .productList)), s2, [])
  | (.error e, s2) => (.error e, s2, ["Cache fetch error:"])

/-! ## Framework header configuration (src/unnamed/part_001) -/

/-- The shapes of route patterns used in `nextConfig.headers`. -/
inductive RoutePattern where
  | exactPath (p : String)
  | seg (base : String)
  | extensions
  | catchAll
  deriving DecidableEq

/-- One route-header rule: the literal source pattern from the config,
its shape, and the header key/value pairs it assigns. -/
structure HeaderRule where
  source : String
  pattern : RoutePattern
  headers : List (String × String)
  deriving DecidableEq

/-- The static-asset extensions listed in the config's asset rule. -/
def staticAssetExts : List String :=
  ["css", "jpg", "jpeg", "png", "gif", "ico", "webp", "svg", "woff", "woff2", "ttf", "otf"]

/-- The extension of a path: the characters after the last dot, when a
dot is present. -/
def lastExt (p : List Char) : Option (List Char) :=
  if p.contains '.' then some ((p.reverse.takeWhile (fun c => c != '.')).reverse)
  else none

/-- Whether a path's extension is one of `staticAssetExts`. -/
def hasStaticAssetExt (p : List Char) : Bool :=
  match lastExt p with
  | some e => staticAssetExts.any (fun s => s.data == e)
  | none => false

/-- Modelled from the spec: the hosting framework's route matching for
the pattern shapes used in the config (the framework itself is an
external dependency, not in-tree code). An exact pattern matches only
itself; `base/:path*` matches `base` and anything under `base/`; the
static-asset pattern matches paths whose extension is in the configured
set; `/:path*` matches every path starting with a slash. -/
def patternMatches : RoutePattern → List Char → Bool
  | .exactPath s, p => p == s.data
  | .seg base, p => p == base.data || startsWithL p (base ++ "/").data
  | .extensions, p => hasStaticAssetExt p
  | .catchAll, p => startsWithL p "/".data

def immutableDirective : String := "public, max-age=31536000, immutable"

def noCacheDirective : String := "private, no-cache, no-store, must-revalidate"

def securityHeaders : List (String × String) :=
  [("X-DNS-Prefetch-Control", "on"),
   ("X-Frame-Options", "SAMEORIGIN"),
   ("X-Content-Type-Options", "nosniff"),
   ("Referrer-Policy", "origin-when-cross-origin"),
   ("Permissions-Policy", "geolocation=(), microphone=(), camera=()")]

/-- Embedding of the list returned by `nextConfig.headers()`. -/
def nextConfigHeaders : List HeaderRule :=
  [{ source := "/",
     pattern := .exactPath "/",
     headers := [("Cache-Control", homepageDirective),
                 ("X-Content-Type-Options", "nosniff")] },
   { source := "/blog/:path*",
     pattern := .seg "/blog",
     headers := [("Cache-Control", blogDirective)] },
   { source := "/products/:path*",
     pattern := .seg "/products",
     headers := [("Cache-Control", productsDirective)] },
   { source := "/category/:path*",
     pattern := .seg "/category",
     headers := [("Cache-Control", blogDirective)] },
   { source := "/:path*(css|jpg|jpeg|png|gif|ico|webp|svg|woff|woff2|ttf|otf)",
     pattern := .extensions,
     headers := [("Cache-Control", immutableDirective)] },
   { source := "/api/:path*",
     pattern := .seg "/api",
     headers := [("Cache-Control", noCacheDirective)] },
   { source := "/:path*",
     pattern := .catchAll,
     headers := securityHeaders }]

/-- All header key/value pairs the framework configuration assigns to a
given path: the headers of every matching rule. -/
def configHeadersFor (p : List Char) : List (String × String) :=
  ((nextConfigHeaders.filter (fun r => patternMatches r.pattern p)).map
    (fun r => r.headers)).flatten

/-! ## Navbar component (src/my-app/components/Navbar.tsx) -/

/-- The three navigation links (label, target) rendered by the Navbar. -/
def navLinks : List (String × String) :=
  [("Products", "/products"), ("About", "/about"), ("Contact", "/contact")]

/-- Abstraction of the Navbar's rendered output: the desktop link row
and the mobile panel, which is present exactly when it is rendered. -/
structure NavbarView where
  desktopLinks : List (String × String)
  mobilePanel : Option (List (String × String))
  deriving DecidableEq

/-- `useState(false)`: the initial value of the `open` state. -/
def navbarInitialOpen : Bool := false

/-- The toggle button's `onClick` handler: `setOpen(!open)`. -/
def toggleOpen (o : Bool) : Bool := !o

/-- Embedding of the Navbar's render as a function of the `open`
state: the desktop row always shows the three links; the mobile panel
is rendered (with the same three links) only when `open` is true. -/
def renderNavbar (o : Bool) : NavbarView :=
  { desktopLinks := navLinks,
    mobilePanel := if o then some navLinks else none }

/-- Parser used to witness the conditional-request check at the spec's
example timestamps (epoch milliseconds); every other string is an
invalid date. -/
def parseSample : String → Option Int
  | "2024-01-01T00:00:00Z" => some 1704067200000
  | "2024-01-02T00:00:00Z" => some 1704153600000
  | "2023-12-31T00:00:00Z" => some 1703980800000
  | _ => none

/-! ## Helper lemmas -/

theorem swl_length {s p : List Char} (h : startsWithL s p = true) :
    p.length ≤ s.length := by
  induction s generalizing p with
  | nil => cases p with
    | nil => simp
    | cons a as => simp [startsWithL] at h
  | cons c cs ih => cases p with
    | nil => simp
    | cons a as =>
      simp only [startsWithL, Bool.and_eq_true] at h
      simpa using ih h.2

theorem swl_trans {s q p : List Char} (hqp : startsWithL q p = true)
    (hsq : startsWithL s q = true) : startsWithL s p = true := by
  induction p generalizing q s with
  | nil => cases s <;> simp [startsWithL]
  | cons a as ih =>
    cases q with
    | nil => simp [startsWithL] at hqp
    | cons b bs =>
      cases s with
      | nil => simp [startsWithL] at hsq
      | cons c cs =>
        simp only [startsWithL, Bool.and_eq_true, beq_iff_eq] at hqp hsq ⊢
        exact ⟨hsq.1.trans hqp.1, ih hqp.2 hsq.2⟩

theorem swl_shorter_of_both {s p q : List Char} (hp : startsWithL s p = true)
    (hq : startsWithL s q = true) (hlen : p.length ≤ q.length) :
    startsWithL q p = true := by
  induction p generalizing q s with
  | nil => cases q <;> simp [startsWithL]
  | cons a as ih =>
    cases q with
    | nil => simp at hlen
    | cons b bs =>
      cases s with
      | nil => simp [startsWithL] at hp
      | cons c cs =>
        simp only [startsWithL, Bool.and_eq_true, beq_iff_eq] at hp hq ⊢
        refine ⟨hq.1.symm.trans hp.1, ih hp.2 hq.2 ?_⟩
        simpa using hlen

theorem mem_configHeadersFor {r : HeaderRule} {p : List Char}
    (hr : r ∈ nextConfigHeaders) (hm : patternMatches r.pattern p = true)
    {h : String × String} (hh : h ∈ r.headers) : h ∈ configHeadersFor p := by
  unfold configHeadersFor
  rw [List.mem_flatten]
  exact ⟨r.headers, List.mem_map_of_mem _ (List.mem_filter.2 ⟨hr, hm⟩), hh⟩

theorem swl_cons {c p : Char} {cs ps : List Char} :
    startsWithL (c :: cs) (p :: ps) = (c == p && startsWithL cs ps) := rfl

theorem swl_excl {s p q : List Char} (hp : startsWithL s p = true)
    (hlen : p.length ≤ q.length) (hnot : startsWithL q p = false) :
    startsWithL s q = false := by
  by_contra h
  rw [Bool.not_eq_false] at h
  rw [swl_shorter_of_both hp h hlen] at hnot
  exact Bool.noConfusion hnot

theorem jsGe_none_left (b : Option Int) : jsGe none b = false := by
  cases b <;> rfl

/-! ## Claims -/

/-- Claim C1: the cache policy table has exactly the eight entries
homepage, productList, productDetail, blog, category, images, noCache,
search, and for each name the `Cache-Control` directive attached by
`createCachedResponse` is character-for-character the table value. -/
theorem cachePolicies_table_exact :
    (allPolicyNames.length = 8 ∧ allPolicyNames.Nodup ∧
      ∀ n : PolicyName, n ∈ allPolicyNames) ∧
    ∀ data : Json,
      getHeader (createCachedResponse data (some .homepage)) "Cache-Control" =
        some "public, s-maxage=60, stale-while-revalidate=300, stale-if-error=86400" ∧
      getHeader (createCachedResponse data (some .productList)) "Cache-Control" =
        some "public, s-maxage=1800, stale-while-revalidate=86400, stale-if-error=604800" ∧
      getHeader (createCachedResponse data (some .productDetail)) "Cache-Control" =
        some "public, s-maxage=3600, stale-while-revalidate=86400, stale-if-error=604800" ∧
      getHeader (createCachedResponse data (some .blog)) "Cache-Control" =
        some "public, s-maxage=3600, stale-while-revalidate=86400, stale-if-error=604800" ∧
      getHeader (createCachedResponse data (some .category)) "Cache-Control" =
        some "public, s-maxage=3600, stale-while-revalidate=86400, stale-if-error=604800" ∧
      getHeader (createCachedResponse data (some .images)) "Cache-Control" =
        some "public, max-age=31536000, immutable" ∧
      getHeader (createCachedResponse data (some .noCache)) "Cache-Control" =
        some "private, no-cache, no-store, must-revalidate" ∧
      getHeader (createCachedResponse data (some .search)) "Cache-Control" =
        some "public, s-maxage=900, stale-while-revalidate=3600" := by
  refine ⟨⟨by decide, by decide, fun n => by cases n <;> decide⟩, ?_⟩
  exact fun data => ⟨rfl, rfl, rfl, rfl, rfl, rfl, rfl, rfl⟩

/-- Claim C9: the Navbar's `open` state starts false, the toggle is an
involution (double activation restores any state), the mobile panel is
present in the render exactly when `open` is true, and both the desktop
row and the open mobile panel hold exactly the three links
Products → /products, About → /about, Contact → /contact. -/
theorem navbar_contract :
    navbarInitialOpen = false ∧
    (∀ o : Bool, toggleOpen (toggleOpen o) = o) ∧
    (∀ o : Bool, ((renderNavbar o).mobilePanel).isSome = o) ∧
    (∀ o : Bool, (renderNavbar o).desktopLinks =
      [("Products", "/products"), ("About", "/about"), ("Contact", "/contact")]) ∧
    (renderNavbar true).mobilePanel =
      some [("Products", "/products"), ("About", "/about"), ("Contact", "/contact")] ∧
    (renderNavbar false).mobilePanel = none := by
  refine ⟨rfl, fun o => by cases o <;> rfl, fun o => by cases o <;> rfl,
    fun o => by cases o <;> rfl, rfl, rfl⟩

/-- Claim C4: for every serializable value, `createCachedResponse`
returns status 200, body the JSON serialization of the input,
`Content-Type: application/json`, the looked-up policy's directive
(defaulting to productList when the policy is omitted), and an ETag of
exactly `W/"` + first 20 characters of the base64 of the JSON body +
`"`; the ETag is a pure function of the input, hence deterministic
across repeated calls. -/
theorem createCachedResponse_contract :
    ∀ (data : Json) (popt : Option PolicyName),
      (createCachedResponse data popt).status = 200 ∧
      (createCachedResponse data popt).body = jsonStringify data ∧
      getHeader (createCachedResponse data popt) "Content-Type" =
        some "application/json" ∧
      getHeader (createCachedResponse data popt) "Cache-Control" =
        some (CACHE_POLICIES (popt.getD .productList)).cacheControl ∧
      getHeader (createCachedResponse data none) "Cache-Control" =
        some (CACHE_POLICIES .productList).cacheControl ∧
      getHeader (createCachedResponse data popt) "ETag" =
        some ("W/\"" ++
          ((base64Encode (utf8Encode (jsonStringify data).data)).take 20).asString
          ++ "\"") :=
  fun _ _ => ⟨rfl, rfl, rfl, rfl, rfl, rfl⟩

/-- Claim C8: `withCache` runs the fetch operation exactly once (the
final state is the state after a single invocation); on success it
returns the fetched value paired with the resolved policy (defaulting
to productList) and logs nothing; on failure it logs one diagnostic
line and re-raises the same error unchanged. -/
theorem withCache_contract {σ ε α : Type} :
    ∀ (fetchFn : σ → Except ε α × σ) (popt : Option PolicyName) (s : σ),
      ((withCache fetchFn popt s).2.1 = (fetchFn s).2) ∧
      (∀ v s2, fetchFn s = (Except.ok v, s2) →
        withCache fetchFn popt s =
          (Except.ok (v, CACHE_POLICIES (popt.getD .productList)), s2, [])) ∧
      (∀ e s2, fetchFn s = (Except.error e, s2) →
        withCache fetchFn popt s = (Except.error e, s2, ["Cache fetch error:"])) := by
  intro fetchFn popt s
  refine ⟨?_, ?_, ?_⟩
  · rcases hfs : fetchFn s with ⟨x, s2⟩
    cases x <;> simp [withCache, hfs]
  · intro v s2 hfs
    simp [withCache, hfs]
  · intro e s2 hfs
    simp [withCache, hfs]

theorem withCache_contract_witness :
    withCache (fun n : Nat => ((Except.ok 7 : Except Unit Nat), n + 1)) none 0 =
      (Except.ok (7, CACHE_POLICIES .productList), 1, []) ∧
    withCache (fun n : Nat => ((Except.error () : Except Unit Nat), n + 1)) none 0 =
      (Except.error (), 1, ["Cache fetch error:"]) :=
  ⟨(withCache_contract (fun n : Nat => ((Except.ok 7 : Except Unit Nat), n + 1))
      none 0).2.1 7 1 rfl,
   (withCache_contract (fun n : Nat => ((Except.error () : Except Unit Nat), n + 1))
      none 0).2.2 () 1 rfl⟩

/-- Claim C2: for non-redirected requests the middleware attaches at
most one `Cache-Control` value (the model's single `Option String`
cell), determined by a mutually exclusive classification: exactly `/`
gets the homepage directive, a `/blog` prefix the blog directive, a
`/products` or `/category` prefix the products directive, and any other
path gets none; no two of the three classes can hold of one path. -/
theorem middleware_cache_classification (u : Url)
    (hnr : (middleware u).redirect = none) :
    (u.pathname = "/".data → (middleware u).cacheControl = some homepageDirective) ∧
    (startsWithL u.pathname "/blog".data = true →
      (middleware u).cacheControl = some blogDirective) ∧
    ((startsWithL u.pathname "/products".data = true ∨
      startsWithL u.pathname "/category".data = true) →
      (middleware u).cacheControl = some productsDirective) ∧
    ((u.pathname ≠ "/".data ∧ startsWithL u.pathname "/blog".data = false ∧
      startsWithL u.pathname "/products".data = false ∧
      startsWithL u.pathname "/category".data = false) →
      (middleware u).cacheControl = none) ∧
    (¬ (u.pathname = "/".data ∧ startsWithL u.pathname "/blog".data = true)) ∧
    (¬ (u.pathname = "/".data ∧
      (startsWithL u.pathname "/products".data = true ∨
       startsWithL u.pathname "/category".data = true))) ∧
    (¬ (startsWithL u.pathname "/blog".data = true ∧
      (startsWithL u.pathname "/products".data = true ∨
       startsWithL u.pathname "/category".data = true))) := by
  have hc : (containsSub u.pathname selfTapSpace ||
      containsSub u.pathname selfTapPct) = false := by
    by_contra hcc
    rw [Bool.not_eq_false] at hcc
    simp [middleware, hcc] at hnr
  have hmw : (middleware u).cacheControl =
      (if startsWithL u.pathname "/products".data ||
          startsWithL u.pathname "/category".data then some productsDirective
       else if startsWithL u.pathname "/blog".data then some blogDirective
       else if u.pathname = "/".data then some homepageDirective
       else none) := by
    simp only [middleware, hc, Bool.false_eq_true, if_false]
  refine ⟨?_, ?_, ?_, ?_, ?_, ?_, ?_⟩
  · intro h0
    rw [hmw, h0]
    decide
  · intro hb
    have hp : startsWithL u.pathname "/products".data = false :=
      swl_excl hb (by decide) (by decide)
    have hcat : startsWithL u.pathname "/category".data = false :=
      swl_excl hb (by decide) (by decide)
    rw [hmw]
    simp [hb, hp, hcat]
  · intro hpc
    rw [hmw]
    rcases hpc with hp | hcat
    · simp [hp]
    · simp [hcat]
  · rintro ⟨h0, hb, hp, hcat⟩
    rw [hmw]
    simp [h0, hb, hp, hcat]
  · rintro ⟨h0, hb⟩
    rw [h0] at hb
    exact absurd hb (by decide)
  · rintro ⟨h0, hpc⟩
    rcases hpc with hp | hcat
    · rw [h0] at hp
      exact absurd hp (by decide)
    · rw [h0] at hcat
      exact absurd hcat (by decide)
  · rintro ⟨hb, hpc⟩
    rcases hpc with hp | hcat
    · rw [swl_excl hb (by decide) (by decide)] at hp
      exact Bool.noConfusion hp
    · rw [swl_excl hb (by decide) (by decide)] at hcat
      exact Bool.noConfusion hcat

theorem middleware_cache_classification_witness :
    (middleware ⟨"https:", "onlyscrews.in", "/blog/latest".data, ""⟩).cacheControl =
      some blogDirective :=
  (middleware_cache_classification
    ⟨"https:", "onlyscrews.in", "/blog/latest".data, ""⟩ (by decide)).2.1 (by decide)

/-- Claim C6: any path containing `/self-tapping -screws` or
`/self-tapping%20-screws` is answered with a 301 redirect whose target
path has the offending substring replaced by `/self-tapping-screws`,
and the step-2 cache-header logic does not run (no `Cache-Control` is
set); the concrete paths `/self-tapping -screws-set` and
`/self-tapping%20-screws-set` both redirect to
`/self-tapping-screws-set`, and the canonical `/self-tapping-screws`
is never redirected. -/
theorem middleware_redirect_normalization (u : Url) :
    ((containsSub u.pathname selfTapSpace = true ∨
      containsSub u.pathname selfTapPct = true) →
      middleware u =
        { redirect := some (301, { u with pathname := normalizePath u.pathname }),
          cacheControl := none }) ∧
    (containsSub u.pathname selfTapSpace = false →
      containsSub u.pathname selfTapPct = false →
      (middleware u).redirect = none) ∧
    (u.pathname = "/self-tapping -screws-set".data →
      (middleware u).redirect =
        some (301, { u with pathname := "/self-tapping-screws-set".data }) ∧
      (middleware u).cacheControl = none) ∧
    (u.pathname = "/self-tapping%20-screws-set".data →
      (middleware u).redirect =
        some (301, { u with pathname := "/self-tapping-screws-set".data }) ∧
      (middleware u).cacheControl = none) ∧
    (u.pathname = "/self-tapping-screws".data → (middleware u).redirect = none) := by
  have hmain : ∀ _ : (containsSub u.pathname selfTapSpace ||
      containsSub u.pathname selfTapPct) = true,
      middleware u =
        { redirect := some (301, { u with pathname := normalizePath u.pathname }),
          cacheControl := none } := by
    intro hc
    simp [middleware, hc]
  refine ⟨?_, ?_, ?_, ?_, ?_⟩
  · intro h
    apply hmain
    rcases h with h | h <;> simp [h]
  · intro h1 h2
    simp [middleware, h1, h2]
  · intro h0
    have e := hmain (by rw [h0]; decide)
    have hrepl : normalizePath u.pathname = "/self-tapping-screws-set".data := by
      rw [normalizePath, h0]; decide
    rw [e, hrepl]
    exact ⟨rfl, rfl⟩
  · intro h0
    have e := hmain (by rw [h0]; decide)
    have hrepl : normalizePath u.pathname = "/self-tapping-screws-set".data := by
      rw [normalizePath, h0]; decide
    rw [e, hrepl]
    exact ⟨rfl, rfl⟩
  · intro h0
    have h1 : containsSub u.pathname selfTapSpace = false := by rw [h0]; decide
    have h2 : containsSub u.pathname selfTapPct = false := by rw [h0]; decide
    simp [middleware, h1, h2]

theorem middleware_redirect_normalization_witness :
    (middleware ⟨"https:", "onlyscrews.in", "/self-tapping -screws-set".data, ""⟩).redirect =
      some (301, ⟨"https:", "onlyscrews.in", "/self-tapping-screws-set".data, ""⟩) ∧
    (middleware ⟨"https:", "onlyscrews.in", "/self-tapping -screws-set".data, ""⟩).cacheControl =
      none ∧
    (middleware ⟨"https:", "onlyscrews.in", "/self-tapping-screws".data, ""⟩).redirect =
      none :=
  ⟨((middleware_redirect_normalization
      ⟨"https:", "onlyscrews.in", "/self-tapping -screws-set".data, ""⟩).2.2.1 rfl).1,
   ((middleware_redirect_normalization
      ⟨"https:", "onlyscrews.in", "/self-tapping -screws-set".data, ""⟩).2.2.1 rfl).2,
   (middleware_redirect_normalization
      ⟨"https:", "onlyscrews.in", "/self-tapping-screws".data, ""⟩).2.2.2.2 rfl⟩

/-- Claim C10: a middleware redirect changes only the pathname — the
status is 301 and protocol, host and query string are carried over
unchanged — and within the pathname only the first occurrence of each
malformed variant is replaced: for paths containing a variant twice,
the redirect target still contains the second, unreplaced occurrence. -/
theorem middleware_redirect_frame :
    (∀ (u : Url) (st : Nat) (t : Url), (middleware u).redirect = some (st, t) →
      st = 301 ∧ t.protocol = u.protocol ∧ t.host = u.host ∧ t.search = u.search) ∧
    ((middleware ⟨"https:", "onlyscrews.in",
        "/self-tapping -screws/self-tapping -screws-set".data, "?q=1"⟩).redirect =
      some (301, ⟨"https:", "onlyscrews.in",
        "/self-tapping-screws/self-tapping -screws-set".data, "?q=1"⟩)) ∧
    containsSub "/self-tapping-screws/self-tapping -screws-set".data selfTapSpace = true ∧
    ((middleware ⟨"https:", "onlyscrews.in",
        "/self-tapping%20-screws/self-tapping%20-screws-set".data, "?q=1"⟩).redirect =
      some (301, ⟨"https:", "onlyscrews.in",
        "/self-tapping-screws/self-tapping%20-screws-set".data, "?q=1"⟩)) ∧
    containsSub "/self-tapping-screws/self-tapping%20-screws-set".data selfTapPct = true := by
  refine ⟨?_, by decide, by decide, by decide, by decide⟩
  intro u st t h
  by_cases hc : (containsSub u.pathname selfTapSpace ||
      containsSub u.pathname selfTapPct) = true
  · simp only [middleware, hc, if_true, Option.some.injEq, Prod.mk.injEq] at h
    obtain ⟨h1, h2⟩ := h
    rw [← h2]
    exact ⟨h1.symm, rfl, rfl, rfl⟩
  · rw [Bool.not_eq_true] at hc
    simp [middleware, hc] at h

theorem middleware_redirect_frame_witness :
    (301 : Nat) = 301 ∧
    (Url.mk "https:" "onlyscrews.in" "/self-tapping-screws".data "?q=1").protocol =
      (Url.mk "https:" "onlyscrews.in" "/self-tapping -screws".data "?q=1").protocol ∧
    (Url.mk "https:" "onlyscrews.in" "/self-tapping-screws".data "?q=1").host =
      (Url.mk "https:" "onlyscrews.in" "/self-tapping -screws".data "?q=1").host ∧
    (Url.mk "https:" "onlyscrews.in" "/self-tapping-screws".data "?q=1").search =
      (Url.mk "https:" "onlyscrews.in" "/self-tapping -screws".data "?q=1").search :=
  middleware_redirect_frame.1
    (Url.mk "https:" "onlyscrews.in" "/self-tapping -screws".data "?q=1") 301
    (Url.mk "https:" "onlyscrews.in" "/self-tapping-screws".data "?q=1") (by decide)

/-- Claim C7: a path beginning with `/api/` is excluded from middleware
execution by the matcher expression (so the middleware never assigns it
a `Cache-Control` header), while the framework configuration assigns it
`private, no-cache, no-store, must-revalidate`. -/
theorem api_paths_excluded (p : List Char)
    (h : startsWithL p "/api/".data = true) :
    middlewareMatches p = false ∧
    ("Cache-Control", noCacheDirective) ∈ configHeadersFor p := by
  have h0 := h
  cases p with
  | nil => exact absurd h (by decide)
  | cons c rest =>
    rw [show ("/api/".data) = '/' :: "api/".data from rfl, swl_cons,
      Bool.and_eq_true, beq_iff_eq] at h
    obtain ⟨rfl, hrest⟩ := h
    have hapi : startsWithL rest "api".data = true :=
      swl_trans (by decide : startsWithL "api/".data "api".data = true) hrest
    constructor
    · simp [middlewareMatches, hapi]
    · refine mem_configHeadersFor (r :=
        { source := "/api/:path*", pattern := .seg "/api",
          headers := [("Cache-Control", noCacheDirective)] }) (by decide) ?_ (by decide)
      simp only [patternMatches, Bool.or_eq_true, beq_iff_eq]
      exact Or.inr h0

theorem api_paths_excluded_witness :
    middlewareMatches "/api/products".data = false ∧
    ("Cache-Control", noCacheDirective) ∈ configHeadersFor "/api/products".data :=
  api_paths_excluded "/api/products".data (by decide)

/-- Claim C3: the framework route rules assign `/category/:path*` the
3600-second directive (which differs from the middleware's 1800-second
directive for the same paths); a path whose extension is in the
configured static-asset set gets the one-year immutable directive while
`data.json` does not match that rule; and every path receives the five
global security headers. -/
theorem nextConfig_routeRules :
    (∀ p : List Char, patternMatches (RoutePattern.seg "/category") p = true →
      ("Cache-Control",
        "public, s-maxage=3600, stale-while-revalidate=86400, stale-if-error=604800") ∈
        configHeadersFor p) ∧
    "public, s-maxage=3600, stale-while-revalidate=86400, stale-if-error=604800" ≠
      productsDirective ∧
    (∀ p : List Char, hasStaticAssetExt p = true →
      ("Cache-Control", "public, max-age=31536000, immutable") ∈ configHeadersFor p) ∧
    hasStaticAssetExt "/style.css".data = true ∧
    hasStaticAssetExt "/logo.png".data = true ∧
    hasStaticAssetExt "/font.woff2".data = true ∧
    hasStaticAssetExt "/data.json".data = false ∧
    ("Cache-Control", immutableDirective) ∉ configHeadersFor "/data.json".data ∧
    (∀ p : List Char, startsWithL p "/".data = true →
      ("X-DNS-Prefetch-Control", "on") ∈ configHeadersFor p ∧
      ("X-Frame-Options", "SAMEORIGIN") ∈ configHeadersFor p ∧
      ("X-Content-Type-Options", "nosniff") ∈ configHeadersFor p ∧
      ("Referrer-Policy", "origin-when-cross-origin") ∈ configHeadersFor p ∧
      ("Permissions-Policy", "geolocation=(), microphone=(), camera=()") ∈
        configHeadersFor p) := by
  refine ⟨?_, by decide, ?_, by decide, by decide, by decide, by decide, by decide, ?_⟩
  · intro p hm
    exact mem_configHeadersFor (r :=
      { source := "/category/:path*", pattern := .seg "/category",
        headers := [("Cache-Control", blogDirective)] }) (by decide) hm (by decide)
  · intro p hm
    exact mem_configHeadersFor (r :=
      { source := "/:path*(css|jpg|jpeg|png|gif|ico|webp|svg|woff|woff2|ttf|otf)",
        pattern := .extensions,
        headers := [("Cache-Control", immutableDirective)] }) (by decide)
      (by simpa [patternMatches] using hm) (by decide)
  · intro p hm
    have hcatch : patternMatches RoutePattern.catchAll p = true := by
      simpa [patternMatches] using hm
    refine ⟨?_, ?_, ?_, ?_, ?_⟩ <;>
      exact mem_configHeadersFor (r :=
        { source := "/:path*", pattern := .catchAll, headers := securityHeaders })
        (by decide) hcatch (by decide)

theorem nextConfig_routeRules_witness :
    ("Cache-Control",
      "public, s-maxage=3600, stale-while-revalidate=86400, stale-if-error=604800") ∈
      configHeadersFor "/category/screws".data ∧
    ("Cache-Control", "public, max-age=31536000, immutable") ∈
      configHeadersFor "/logo.png".data ∧
    ("X-Frame-Options", "SAMEORIGIN") ∈ configHeadersFor "/contact".data :=
  ⟨nextConfig_routeRules.1 "/category/screws".data (by decide),
   nextConfig_routeRules.2.2.1 "/logo.png".data (by decide),
   (nextConfig_routeRules.2.2.2.2.2.2.2.2 "/contact".data (by decide)).2.1⟩

/-- Claim C5: for any date parser sending the empty string to an
invalid date, `checkConditionalRequest` returns the empty 304 response
exactly when the request carries an `if-modified-since` value whose
parsed time compares `>=` the parsed `lastModified` (JavaScript
semantics: comparisons with an invalid date are false); every other
outcome is the absent result, so an unparseable `if-modified-since`
falls through rather than failing; and the result depends only on the
`if-modified-since` header, so `if-none-match` has no influence. -/
theorem checkConditionalRequest_contract
    (parse : String → Option Int) (req : Request) (lastModified : String)
    (hparse : parse "" = none) :
    (checkConditionalRequest parse req lastModified =
        some { status := 304, body := none } ↔
      ∃ v, getReqHeader req "if-modified-since" = some v ∧
        jsGe (parse v) (parse lastModified) = true) ∧
    (checkConditionalRequest parse req lastModified =
        some { status := 304, body := none } ∨
      checkConditionalRequest parse req lastModified = none) ∧
    (∀ v, getReqHeader req "if-modified-since" = some v → parse v = none →
      checkConditionalRequest parse req lastModified = none) ∧
    (∀ req2 : Request,
      getReqHeader req2 "if-modified-since" = getReqHeader req "if-modified-since" →
      checkConditionalRequest parse req2 lastModified =
        checkConditionalRequest parse req lastModified) := by
  have hunf : ∀ r : Request, checkConditionalRequest parse r lastModified =
      (match getReqHeader r "if-modified-since" with
       | some v =>
         if v ≠ "" then
           (if jsGe (parse v) (parse lastModified) then
             some { status := 304, body := none } else none)
         else none
       | none => none) := fun _ => rfl
  refine ⟨?_, ?_, ?_, ?_⟩
  · rw [hunf]
    cases hv : getReqHeader req "if-modified-since" with
    | none => simp
    | some v =>
      by_cases hve : v = ""
      · subst hve
        simp [hparse, jsGe_none_left]
      · simp only [hve, ne_eq, not_false_iff, if_true, Option.some.injEq,
          exists_eq_left]
        by_cases hj : jsGe (parse v) (parse lastModified) = true
        · simp [hj]
        · rw [Bool.not_eq_true] at hj
          simp [hj]
  · rw [hunf]
    cases hv : getReqHeader req "if-modified-since" with
    | none => exact Or.inr rfl
    | some v =>
      by_cases hve : v = ""
      · subst hve
        simp
      · simp only [hve, ne_eq, not_false_iff, if_true]
        by_cases hj : jsGe (parse v) (parse lastModified) = true
        · simp [hj]
        · rw [Bool.not_eq_true] at hj
          simp [hj]
  · intro v hv hnone
    rw [hunf, hv]
    by_cases hve : v = ""
    · simp [hve]
    · simp [hve, hnone, jsGe_none_left]
  · intro req2 h2
    rw [hunf req2, hunf req, h2]

theorem checkConditionalRequest_contract_witness :
    checkConditionalRequest parseSample
        ⟨[("if-modified-since", "2024-01-02T00:00:00Z")]⟩ "2024-01-01T00:00:00Z" =
      some { status := 304, body := none } ∧
    checkConditionalRequest parseSample
        ⟨[("if-modified-since", "2023-12-31T00:00:00Z")]⟩ "2024-01-01T00:00:00Z" =
      none ∧
    checkConditionalRequest parseSample
        ⟨[("if-modified-since", "not a date")]⟩ "2024-01-01T00:00:00Z" = none :=
  ⟨(checkConditionalRequest_contract parseSample
      ⟨[("if-modified-since", "2024-01-02T00:00:00Z")]⟩ "2024-01-01T00:00:00Z"
      rfl).1.mpr ⟨"2024-01-02T00:00:00Z", rfl, by decide⟩,
   by
    rcases (checkConditionalRequest_contract parseSample
        ⟨[("if-modified-since", "2023-12-31T00:00:00Z")]⟩ "2024-01-01T00:00:00Z"
        rfl).2.1 with h | h
    · exact absurd ((checkConditionalRequest_contract parseSample
        ⟨[("if-modified-since", "2023-12-31T00:00:00Z")]⟩ "2024-01-01T00:00:00Z"
        rfl).1.mp h) (by decide)
    · exact h,
   (checkConditionalRequest_contract parseSample
      ⟨[("if-modified-since", "not a date")]⟩ "2024-01-01T00:00:00Z"
      rfl).2.2.1 "not a date" rfl rfl⟩
